import Mathlib

/-!
Shallow embedding of the deno core runtime (src/core/runtime.rs): the JsRuntime
poll loop, shared-queue response delivery with the overflow fallback, the module
loading state machine, dynamic-import integration, termination-aware error
conversion, and the snapshot operation.

Conventions of the embedding:
- Machine effects that Rust expresses as `panic!` / `assert!` / `.unwrap()` /
  `.expect(...)` are modelled by the `Outcome.panicked` constructor.
- Fallible steps return `Outcome.err` carrying the host error (`ErrBox`).
- Code of this repository that is not under src (shared_queue.rs, modules.rs,
  errors.rs, bindings.rs) is modelled from the spec; each such definition says
  so in its doc comment.
- Engine (V8) behaviour that the host merely observes (module statuses,
  instantiate and evaluate results) is an oracle carried in the state.
-/

/-- Engine (V8) values, to the extent the host code inspects them: null and
undefined checks, synthesized Error and TypeError objects, and opaque values. -/
inductive V8Value where
  | null
  | undefined
  | error (msg : String)
  | typeError (msg : String)
  | other (tag : Nat)
  deriving DecidableEq, Repr

/-- Embeds `v8::Value::is_null_or_undefined` as used by exception_to_err_result. -/
def V8Value.is_null_or_undefined : V8Value → Bool
  | .null => true
  | .undefined => true
  | _ => false

/-- Modelled from the spec: the structured host error built by
`JsError::from_v8_exception` in errors.rs (not under src). It records the engine
exception it was built from; its display format is irrelevant to the claims. -/
structure JsError where
  exception : V8Value
  deriving DecidableEq, Repr

/-- Modelled from the spec: construction of the structured error from an engine
exception (errors.rs is not under src). -/
def JsError.from_v8_exception (exception : V8Value) : JsError := ⟨exception⟩

/-- Modelled from the spec: the boxed host error type `ErrBox`. It carries its
display string and, when the error is an `ErrWithV8Handle`, the attached engine
exception value (`v8Handle = some h` models a successful downcast). -/
structure ErrBox where
  message : String
  v8Handle : Option V8Value
  deriving DecidableEq, Repr

/-- Result of one host step: normal value, host error, Rust panic or abort, or
exhaustion of the fuel that bounds the unbounded Rust loops of the model. -/
inductive Outcome (α : Type) where
  | ok (a : α)
  | err (e : ErrBox)
  | panicked (msg : String)
  | fuelOut
  deriving DecidableEq, Repr

/-- True on the `panicked` constructor. -/
def Outcome.isPanicked : Outcome α → Bool
  | .panicked _ => true
  | _ => false

/-- True on the `ok` constructor. -/
def Outcome.isOk : Outcome α → Bool
  | .ok _ => true
  | _ => false

/-- True on the `err` constructor. -/
def Outcome.isErr : Outcome α → Bool
  | .err _ => true
  | _ => false

/-- Modelled from the spec: the SharedQueue (spec section 3). A fixed-capacity
region holding (op id, payload) records; push returns false when either the
offsets table (`maxRecords`) or the payload arena (`capacityBytes`) would
overflow, and a failed push performs no partial write. shared_queue.rs is not
under src; only this interface is consumed by runtime.rs. -/
structure SharedQueue where
  maxRecords : Nat
  capacityBytes : Nat
  records : List (Nat × List Nat)
  deriving DecidableEq, Repr

/-- Total payload bytes currently stored in the queue. -/
def SharedQueue.bytesUsed (q : SharedQueue) : Nat :=
  (q.records.map (fun r => r.2.length)).sum

/-- Modelled from the spec: `SharedQueue::size`, the number of queued records. -/
def SharedQueue.size (q : SharedQueue) : Nat := q.records.length

/-- Modelled from the spec: `SharedQueue::push`. Appends on success; returns the
queue unchanged with false when the record table or the byte arena would
overflow. -/
def SharedQueue.push (q : SharedQueue) (op_id : Nat) (buf : List Nat) :
    SharedQueue × Bool :=
  if q.records.length + 1 ≤ q.maxRecords ∧ q.bytesUsed + buf.length ≤ q.capacityBytes then
    ({ q with records := q.records ++ [(op_id, buf)] }, true)
  else
    (q, false)

/-- Termination flag of the isolate while the structured error is being built
inside exception_to_err_result: the code first cancels an active termination
(`cancel_terminate_execution`), so during construction the flag is false. -/
def termination_state_during_error_build (is_terminating_exception : Bool) : Bool :=
  if is_terminating_exception then false else is_terminating_exception

/-- Embeds `exception_to_err_result` (runtime.rs lines 766-804). Input: the
user-installed error wrap function (`js_error_create_fn`), the value of
`is_execution_terminating()` on entry, and the exception. Output: the value of
the termination flag when the function returns, and the host error. The flag
during construction is `termination_state_during_error_build`; at the end the
code re-asserts termination (`terminate_execution`) when it was active. -/
def exception_to_err_result (create_fn : JsError → ErrBox)
    (is_terminating_exception : Bool) (exception : V8Value) : Bool × ErrBox :=
  let term_during_build := termination_state_during_error_build is_terminating_exception
  let exception :=
    if is_terminating_exception && exception.is_null_or_undefined then
      V8Value.error "execution terminated"
    else exception
  let js_error := JsError.from_v8_exception exception
  let js_error := create_fn js_error
  let term_final := if is_terminating_exception then true else term_during_build
  (term_final, js_error)

/-- Engine module status (`v8::ModuleStatus`), as consulted by runtime.rs. -/
inductive ModuleStatus where
  | uninstantiated
  | instantiating
  | instantiated
  | evaluating
  | evaluated
  | errored
  deriving DecidableEq, Repr

/-- Modelled from the spec: per-module registry info (spec section 3,
ModuleRegistry): canonical url, main flag, and the ordered dependency
specifiers produced at registration. modules.rs is not under src. -/
structure ModuleInfo where
  name : String
  main : Bool
  import_specifiers : List String
  deriving DecidableEq, Repr

/-- Modelled from the spec: an entry of the url table of the registry; a url
maps either to a registered module id or is an alias of another url. -/
inductive SymbolicModule where
  | modId (id : Nat)
  | aliasTo (target : String)
  deriving DecidableEq, Repr

/-- Modelled from the spec: the ModuleRegistry (spec section 3). Tables:
id to info, url to id or alias (one table, as the alias and module entries
share the name space), with aliasing transitive-closed at insertion. -/
structure Modules where
  info : List (Nat × ModuleInfo)
  by_name : List (String × SymbolicModule)
  deriving DecidableEq, Repr

/-- The empty registry (`Modules::new`, also the `Default` used by
`std::mem::take` in snapshot). -/
def Modules.empty : Modules := ⟨[], []⟩

/-- Modelled from the spec: id lookup by url. The spec states aliases are
transitive-closed at insertion, so following at most one alias hop suffices. -/
def Modules.get_id (m : Modules) (name : String) : Option Nat :=
  match m.by_name.lookup name with
  | some (.modId id) => some id
  | some (.aliasTo target) =>
    match m.by_name.lookup target with
    | some (.modId id) => some id
    | _ => none
  | none => none

/-- Modelled from the spec: registering an alias from the specified url to the
canonical url found by the loader; the stored target is fully resolved so that
chains stay one hop long. -/
def Modules.alias (m : Modules) (name target : String) : Modules :=
  let target :=
    match m.by_name.lookup target with
    | some (.aliasTo t) => t
    | _ => target
  { m with by_name := (name, .aliasTo target) :: m.by_name }

/-- Modelled from the spec: registering a compiled module under the
engine-assigned id. -/
def Modules.register (m : Modules) (id : Nat) (name : String) (main : Bool)
    (import_specifiers : List String) : Modules :=
  { info := (id, ⟨name, main, import_specifiers⟩) :: m.info,
    by_name := (name, .modId id) :: m.by_name }

/-- Modelled from the spec: whether a url already names a registered module. -/
def Modules.is_registered (m : Modules) (name : String) : Bool :=
  (m.get_id name).isSome

/-- Modelled from the spec: info lookup by module id (`get_info`). -/
def Modules.get_info (m : Modules) (id : Nat) : Option ModuleInfo :=
  m.info.lookup id

/-- Modelled from the spec: the dependency urls of a registered module
(`get_children`). -/
def Modules.get_children (m : Modules) (id : Nat) : Option (List String) :=
  (m.info.lookup id).map (fun i => i.import_specifiers)

/-- Modelled from the spec: the ModuleLoader capability (spec section 6.2).
Only `resolve` is called synchronously by the embedded functions; `load` and
`prepare` futures appear as readiness data inside the loads. -/
structure Loader where
  resolve : String → String → Bool → Except ErrBox String

/-- Compilation view of one module source: either the list of import
specifiers the engine reads off the compiled module, or a compile exception. -/
inductive ModCode where
  | src (imports : List String)
  | compileError (exc : V8Value)
  deriving DecidableEq, Repr

/-- The `ModuleSource` record pulled from the loader (spec section 6.2). -/
structure ModuleSource where
  code : ModCode
  module_url_specified : String
  module_url_found : String
  deriving DecidableEq, Repr

/-- Oracle for engine-side module behaviour observed by runtime.rs: the next
identity hash handed to a freshly compiled module, the reported status of a
module, its recorded exception, and the results of instantiate and evaluate.
The internal status transitions of the engine are not modelled; the oracle
answers what the engine would report when asked. -/
structure Engine where
  nextId : Nat
  statusOf : Nat → ModuleStatus
  exceptionOf : Nat → V8Value
  instantiateOutcome : Nat → Except V8Value Unit
  evaluateOutcome : Nat → ModuleStatus × Option Int

deriving instance DecidableEq for Except

/-- State of one future of the model during the current poll: ready with its
output, or not ready. -/
inductive FutState (α : Type) where
  | ready (a : α)
  | pending
  deriving DecidableEq, Repr

/-- One in-flight fetch of a RecursiveModuleLoad: the requested specifier, the
referrer it was added under, and the state of the loader `load` future. -/
structure PendingFetch where
  specifier : String
  referrer : String
  result : FutState (Except ErrBox ModuleSource)
  deriving DecidableEq, Repr

/-- The three states of a RecursiveModuleLoad (`LoadState` in modules.rs,
spec section 3). -/
inductive LoadState where
  | loadingRoot
  | loadingImports
  | done
  deriving DecidableEq, Repr

/-- Forward order of the load state machine: LoadingRoot before LoadingImports
before Done. -/
def LoadState.rank : LoadState → Nat
  | .loadingRoot => 0
  | .loadingImports => 1
  | .done => 2

/-- Modelled from the spec: a RecursiveModuleLoad (spec section 3): unique load
id, kind (dynamic import or main), state, optional root module id, and the
pending fetch set. `loadFn` models the readiness during this poll of the load
future the loader returns for a given (specifier, referrer); modules.rs is not
under src. -/
structure RecursiveModuleLoad where
  id : Nat
  state : LoadState
  root_module_id : Option Nat
  pending : List PendingFetch
  is_dyn_import : Bool
  loadFn : String → String → FutState (Except ErrBox ModuleSource)

/-- Embeds `RecursiveModuleLoad::is_dynamic_import`. -/
def RecursiveModuleLoad.is_dynamic_import (load : RecursiveModuleLoad) : Bool :=
  load.is_dyn_import

/-- Modelled from the spec: `RecursiveModuleLoad::add_import` pushes a loader
fetch future for the new specifier into the pending set (spec section 4.6.4
step 4). -/
def RecursiveModuleLoad.add_import (load : RecursiveModuleLoad)
    (specifier referrer : String) : RecursiveModuleLoad :=
  { load with
    pending := load.pending ++ [⟨specifier, referrer, load.loadFn specifier referrer⟩] }

/-- Observable host actions of a poll, in order of occurrence: resolver
rejection and resolution of dynamic imports, microtask checkpoints, the two
kinds of receive-callback invocation, and engine module operations. -/
inductive RtEvent where
  | resolverRejected (resolver : Nat) (exc : V8Value)
  | resolverResolved (resolver : Nat) (mod_id : Nat)
  | microtaskCheckpoint
  | recvBatchCall
  | recvOverflowCall (op_id : Nat) (buf : List Nat)
  | engineInstantiate (mod_id : Nat)
  | engineEvaluate (mod_id : Nat)
  deriving DecidableEq, Repr

/-- One invocation of the script-registered macrotask callback: it may throw
(the host then converts the exception) and otherwise reports whether the
macrotask queue is exhausted. -/
structure MacrotaskTick where
  exc : Option V8Value
  is_done : Bool
  deriving DecidableEq, Repr

/-- Embeds `JsRuntimeState` (runtime.rs lines 129-148), with the engine-side
oracle attached. The script-side receive callback is modelled as a function
from the call argument and the queue it may shift from to the queue it leaves
behind and an optional thrown exception; the macrotask callback as the finite
list of results its successive invocations produce this poll. The waker and the
shared array buffer handle are not modelled (no claim observes them). -/
structure JsRuntimeState where
  global_context : Option Unit
  js_recv_cb : Option (Option (Nat × List Nat) → SharedQueue → SharedQueue × Option V8Value)
  js_macrotask_cb : Option (List MacrotaskTick)
  pending_promise_exceptions : List (Int × V8Value)
  js_error_create_fn : JsError → ErrBox
  shared : SharedQueue
  pending_ops : List (FutState (Nat × List Nat))
  pending_unref_ops : List (FutState (Nat × List Nat))
  have_unpolled_ops : Bool
  modules : Modules
  loader : Loader
  dyn_import_map : List (Nat × Nat)
  preparing_dyn_imports : List (FutState (Nat × Except ErrBox RecursiveModuleLoad))
  pending_dyn_imports : List RecursiveModuleLoad
  is_execution_terminating : Bool
  engine : Engine

/-- Applies exception_to_err_result in the context of the runtime state,
recording the updated termination flag back into the state. -/
def exception_to_err (st : JsRuntimeState) (exception : V8Value) :
    JsRuntimeState × ErrBox :=
  let r := exception_to_err_result st.js_error_create_fn st.is_execution_terminating exception
  ({ st with is_execution_terminating := r.1 }, r.2)

/-- Embeds `check_promise_exceptions` (runtime.rs lines 806-820): if any
unhandled promise rejection is recorded, remove one entry and surface it as a
host error. The hash-map iteration order of the source is unspecified; the
model takes the first entry of its list. -/
def check_promise_exceptions (st : JsRuntimeState) :
    Outcome Unit × JsRuntimeState × List RtEvent :=
  match st.pending_promise_exceptions with
  | [] => (.ok (), st, [])
  | (_key, handle) :: rest =>
    let st := { st with pending_promise_exceptions := rest }
    let r := exception_to_err st handle
    (.err r.2, r.1, [])

/-- A script-visible typed view over a response buffer. -/
structure Uint8Array where
  data : List Nat
  deriving DecidableEq, Repr

/-- Embeds `boxed_slice_to_uint8array` (runtime.rs lines 829-840). The source
asserts the buffer is non-empty; the model returns `none` for the empty buffer
and the caller turns that into the panic. -/
def boxed_slice_to_uint8array (buf : List Nat) : Option Uint8Array :=
  if buf.isEmpty then none else some ⟨buf⟩

/-- Embeds `async_op_response` (runtime.rs lines 700-730): requires the
script-side receive callback to have been registered (`expect`, a panic
otherwise); for the overflow form converts the buffer (non-empty assert) and
calls the callback with `(op_id, buf)`; for the batch form calls it with no
arguments; converts a thrown exception through exception_to_err_result. -/
def async_op_response (st : JsRuntimeState) (maybe_buf : Option (Nat × List Nat)) :
    Outcome Unit × JsRuntimeState × List RtEvent :=
  match st.js_recv_cb with
  | none => (.panicked "Deno.core.recv has not been called.", st, [])
  | some cb =>
    match maybe_buf with
    | some (op_id, buf) =>
      match boxed_slice_to_uint8array buf with
      | none => (.panicked "assertion failed: buf is not empty", st, [])
      | some _ui8 =>
        let r := cb (some (op_id, buf)) st.shared
        let st := { st with shared := r.1 }
        let ev := [RtEvent.recvOverflowCall op_id buf]
        match r.2 with
        | none => (.ok (), st, ev)
        | some exc =>
          let r2 := exception_to_err st exc
          (.err r2.2, r2.1, ev)
    | none =>
      let r := cb none st.shared
      let st := { st with shared := r.1 }
      let ev := [RtEvent.recvBatchCall]
      match r.2 with
      | none => (.ok (), st, ev)
      | some exc =>
        let r2 := exception_to_err st exc
        (.err r2.2, r2.1, ev)

/-- Embeds poll step 7 (runtime.rs lines 617-626): if the SharedQueue is
non-empty, invoke the receive callback with no arguments and assert afterwards
that script shifted off every message (`assert_eq!(state.shared.size(), 0)`). -/
def poll_step7 (st : JsRuntimeState) : Outcome Unit × JsRuntimeState × List RtEvent :=
  if st.shared.size > 0 then
    match async_op_response st none with
    | (.ok _, st', ev) =>
      if st'.shared.size = 0 then (.ok (), st', ev)
      else (.panicked "assertion failed: left == right (shared.size, 0)", st', ev)
    | other => other
  else (.ok (), st, [])

/-- Embeds the macrotask loop body of `drain_macrotasks` (runtime.rs lines
750-761) over the remaining invocation results: each call may throw (converted
to a host error) and otherwise reports done or not done. An exhausted script is
read as done. -/
def run_macrotasks (st : JsRuntimeState) : List MacrotaskTick → Outcome Unit × JsRuntimeState
  | [] => (.ok (), st)
  | t :: rest =>
    match t.exc with
    | some e =>
      let r := exception_to_err st e
      (.err r.2, r.1)
    | none =>
      if t.is_done then (.ok (), st)
      else run_macrotasks st rest

/-- Embeds `drain_macrotasks` (runtime.rs lines 732-764): a no-op when no
macrotask callback is registered, otherwise the invocation loop. -/
def drain_macrotasks (st : JsRuntimeState) : Outcome Unit × JsRuntimeState × List RtEvent :=
  match st.js_macrotask_cb with
  | none => (.ok (), st, [])
  | some ticks =>
    let r := run_macrotasks st ticks
    (r.1, r.2, [])

/-- Polls a FuturesUnordered set once: returns the output of a ready future and
the set without it, or `none` when no member is ready (covering both the
`Poll::Pending` and the `Poll::Ready(None)` break of the source loops). -/
def findReady : List (FutState α) → Option (α × List (FutState α))
  | [] => none
  | .ready a :: rest => some (a, rest)
  | .pending :: rest => (findReady rest).map (fun p => (p.1, .pending :: p.2))

theorem findReady_length {l : List (FutState α)} {a : α} {rest : List (FutState α)}
    (h : findReady l = some (a, rest)) : rest.length + 1 = l.length := by
  induction l generalizing a rest with
  | nil => simp [findReady] at h
  | cons hd tl ih =>
    cases hd with
    | ready b => simp [findReady] at h; simp [h.2.symm]
    | pending =>
      simp only [findReady, Option.map_eq_some'] at h
      obtain ⟨⟨a2, rest2⟩, hp, hq⟩ := h
      have h1 : a2 = a := congrArg Prod.fst hq
      have h2 : FutState.pending :: rest2 = rest := congrArg Prod.snd hq
      subst h1
      subst h2
      have := ih hp
      simp only [List.length_cons]
      omega

/-- Result of one response drain loop (runtime.rs lines 575-595 for the reffed
set, 597-615 for the unreffed set): the queue after the successful pushes, the
futures still in the set, the responses pushed, and the response that failed to
push, if any (it was polled out of the set and placed in the overflow slot). -/
structure DrainLoopResult where
  queue : SharedQueue
  remaining : List (FutState (Nat × List Nat))
  pushed : List (Nat × List Nat)
  overflow : Option (Nat × List Nat)
  deriving DecidableEq, Repr

/-- The recursion of one drain loop, bounded by the size of the future set:
each iteration polls one ready future out of the set, so the set size bounds
the iteration count exactly (findReady_length). -/
def drainOpsAux : Nat → SharedQueue → List (FutState (Nat × List Nat)) → DrainLoopResult
  | 0, q, ops => ⟨q, ops, [], none⟩
  | fuel + 1, q, ops =>
    match findReady ops with
    | none => ⟨q, ops, [], none⟩
    | some (r, rest) =>
      let pr := q.push r.1 r.2
      if pr.2 then
        let out := drainOpsAux fuel pr.1 rest
        ⟨out.queue, out.remaining, r :: out.pushed, out.overflow⟩
      else ⟨q, rest, [], some r⟩

/-- Embeds one drain loop over a pending-op set: poll ready futures one at a
time; push each response onto the SharedQueue; on a failed push record the
response in the overflow slot and break, leaving the rest of the set unpolled. -/
def drainOps (q : SharedQueue) (ops : List (FutState (Nat × List Nat))) :
    DrainLoopResult :=
  drainOpsAux ops.length q ops

/-- Result of the full drain phase of a poll: both loops, with the loop-local
overflow slots kept apart so that the final slot content is visible. -/
structure DrainPhaseResult where
  queue : SharedQueue
  ops : List (FutState (Nat × List Nat))
  unref_ops : List (FutState (Nat × List Nat))
  pushed1 : List (Nat × List Nat)
  pushed2 : List (Nat × List Nat)
  ovf1 : Option (Nat × List Nat)
  ovf2 : Option (Nat × List Nat)
  deriving DecidableEq, Repr

/-- The content of the single `overflow_response` variable after both loops:
the second loop overwrites the slot when its own push fails. -/
def DrainPhaseResult.overflow_response (d : DrainPhaseResult) : Option (Nat × List Nat) :=
  match d.ovf2 with
  | some r => some r
  | none => d.ovf1

/-- Every response polled out of the two future sets during this drain phase:
the pushed ones and the ones that failed to push. -/
def DrainPhaseResult.completed (d : DrainPhaseResult) : List (Nat × List Nat) :=
  d.pushed1 ++ d.pushed2 ++ d.ovf1.toList ++ d.ovf2.toList

/-- Embeds the drain phase of the poll (runtime.rs lines 573-615): drain the
reffed set into the SharedQueue, then the unreffed set, sharing the single
overflow slot. -/
def drainPhase (q : SharedQueue) (ops unref : List (FutState (Nat × List Nat))) :
    DrainPhaseResult :=
  let d1 := drainOps q ops
  let d2 := drainOps d1.queue unref
  ⟨d2.queue, d1.remaining, d2.remaining, d1.pushed, d2.pushed, d1.overflow, d2.overflow⟩

/-- Forgets the value of a non-ok outcome so it can be re-raised at unit type. -/
def Outcome.toUnit : Outcome α → Outcome Unit
  | .ok _ => .ok ()
  | .err e => .err e
  | .panicked m => .panicked m
  | .fuelOut => .fuelOut

/-- Resolves each import specifier of a freshly compiled module against the
module url via the loader (the loop of mod_new, runtime.rs lines 878-886);
stops at the first resolve error. -/
def resolve_imports (loader : Loader) (name : String) :
    List String → Except ErrBox (List String)
  | [] => .ok []
  | s :: rest =>
    match loader.resolve s name false with
    | .error e => .error e
    | .ok specifier =>
      match resolve_imports loader name rest with
      | .error e => .error e
      | .ok tail => .ok (specifier :: tail)

/-- Embeds `mod_new` (runtime.rs lines 847-897): compile the module (a compile
exception is converted to a host error), take the engine identity hash as the
id, resolve all import specifiers through the loader, and register the module
with its dependency list. -/
def mod_new (st : JsRuntimeState) (main : Bool) (name : String) (source : ModCode) :
    Outcome Nat × JsRuntimeState × List RtEvent :=
  if st.global_context.isNone then (.panicked "unwrap on global_context", st, [])
  else
    match source with
    | .compileError exc =>
      let r := exception_to_err st exc
      (.err r.2, r.1, [])
    | .src imports =>
      let id := st.engine.nextId
      match resolve_imports st.loader name imports with
      | .error e => (.err e, st, [])
      | .ok import_specifiers =>
        let st := { st with
          modules := st.modules.register id name main import_specifiers,
          engine := { st.engine with nextId := st.engine.nextId + 1 } }
        (.ok id, st, [])

/-- The tail of register_during_load after the module id is known (runtime.rs
lines 1219-1248): add every not-yet-registered dependency to the pending set of
the load, then perform the state transition of the load. -/
def register_finish (st : JsRuntimeState) (load : RecursiveModuleLoad)
    (module_id : Nat) (referrer_specifier : String) :
    Outcome RecursiveModuleLoad × JsRuntimeState × List RtEvent :=
  match st.modules.get_children module_id with
  | none => (.panicked "unwrap on get_children", st, [])
  | some imports =>
    let load := imports.foldl (fun ld specifier =>
        if st.modules.is_registered specifier then ld
        else ld.add_import specifier referrer_specifier) load
    let load :=
      if load.state == LoadState.loadingRoot then
        { load with root_module_id := some module_id, state := LoadState.loadingImports }
      else load
    let load :=
      if load.pending.isEmpty then { load with state := LoadState.done } else load
    (.ok load, st, [])

/-- Embeds `register_during_load` (runtime.rs lines 1166-1249): register an
alias when the canonical url differs from the specified one, reuse an already
registered module or create it with mod_new, queue unregistered dependencies,
and advance the load state machine (LoadingRoot to LoadingImports once the root
is registered; Done once the pending set is empty). -/
def register_during_load (st : JsRuntimeState) (info : ModuleSource)
    (load : RecursiveModuleLoad) :
    Outcome RecursiveModuleLoad × JsRuntimeState × List RtEvent :=
  let is_main := load.state == LoadState.loadingRoot && !load.is_dynamic_import
  let referrer_specifier := info.module_url_found
  let st :=
    if info.module_url_specified ≠ info.module_url_found then
      { st with modules := st.modules.alias info.module_url_specified info.module_url_found }
    else st
  match st.modules.get_id info.module_url_found with
  | some id => register_finish st load id referrer_specifier
  | none =>
    match mod_new st is_main info.module_url_found info.code with
    | (.ok id, st2, ev) =>
      let r := register_finish st2 load id referrer_specifier
      (r.1, r.2.1, ev ++ r.2.2)
    | (.err e, st2, ev) => (.err e, st2, ev)
    | (.panicked m, st2, ev) => (.panicked m, st2, ev)
    | (.fuelOut, st2, ev) => (.fuelOut, st2, ev)

/-- Embeds `mod_instantiate` (runtime.rs lines 904-933): enter a handle scope
in the global context (a panic if the context has been dropped), look the
module up by id, treat id 0 as the silent not-present sentinel, surface the
exception of an already-errored module, and otherwise ask the engine to link. -/
def mod_instantiate (st : JsRuntimeState) (id : Nat) :
    Outcome Unit × JsRuntimeState × List RtEvent :=
  if st.global_context.isNone then (.panicked "unwrap on global_context", st, [])
  else
    match st.modules.get_info id with
    | some _info =>
      if st.engine.statusOf id == ModuleStatus.errored then
        let r := exception_to_err st (st.engine.exceptionOf id)
        (.err r.2, r.1, [])
      else
        match st.engine.instantiateOutcome id with
        | .ok _ => (.ok (), st, [.engineInstantiate id])
        | .error exc =>
          let r := exception_to_err st exc
          (.err r.2, r.1, [.engineInstantiate id])
    | none =>
      if id = 0 then (.ok (), st, [])
      else (.panicked "module id not found in module table", st, [])

/-- The terminal status dispatch of mod_evaluate (runtime.rs lines 995-1003):
Evaluated is success; Errored surfaces the module exception with the engine
value attached to the host error (`attach_handle_to_error`); anything else is
a panic. -/
def mod_evaluate_finish (st : JsRuntimeState) (id : Nat) (status : ModuleStatus)
    (ev : List RtEvent) : Outcome Unit × JsRuntimeState × List RtEvent :=
  match status with
  | .evaluated => (.ok (), st, ev)
  | .errored =>
    let exc := st.engine.exceptionOf id
    let r := exception_to_err st exc
    (.err { r.2 with v8Handle := some exc }, r.1, ev)
  | _ => (.panicked "Unexpected module status", st, ev)

/-- Embeds `mod_evaluate` (runtime.rs lines 940-1004): for an Instantiated
module, run the engine evaluation (top-level await makes the result a
promise); when a promise is returned, assert the terminal status and remove
the recorded unhandled rejection of that exact promise identity; then dispatch
on the resulting status. -/
def mod_evaluate (st : JsRuntimeState) (id : Nat) :
    Outcome Unit × JsRuntimeState × List RtEvent :=
  if st.global_context.isNone then (.panicked "unwrap on global_context", st, [])
  else
    match st.modules.get_info id with
    | none => (.panicked "ModuleInfo not found", st, [])
    | some _ =>
      let status := st.engine.statusOf id
      if status == ModuleStatus.instantiated then
        let r := st.engine.evaluateOutcome id
        match r.2 with
        | some promise_id =>
          if r.1 == ModuleStatus.evaluated || r.1 == ModuleStatus.errored then
            let st := { st with pending_promise_exceptions :=
                st.pending_promise_exceptions.filter (fun kv => kv.1 != promise_id) }
            mod_evaluate_finish st id r.1 [.engineEvaluate id]
          else
            (.panicked "assertion failed: status is Evaluated or Errored", st,
              [.engineEvaluate id])
        | none =>
          if r.1 == ModuleStatus.errored then
            mod_evaluate_finish st id r.1 [.engineEvaluate id]
          else
            (.panicked "assertion failed: status is Errored", st, [.engineEvaluate id])
      else
        mod_evaluate_finish st id status []

/-- Removes the entry of a key from an association list, returning the stored
value and the remaining list (the model of `HashMap::remove`). -/
def removeEntry (m : List (Nat × Nat)) (id : Nat) : Option (Nat × List (Nat × Nat)) :=
  match m.lookup id with
  | none => none
  | some r => some (r, m.filter (fun kv => kv.1 != id))

/-- The rejection value of dyn_import_error (runtime.rs lines 1025-1032): the
attached engine exception when the error carries one (`ErrWithV8Handle`
downcast), otherwise a fresh TypeError whose message is the display string of
the error. -/
def dyn_import_exception (err : ErrBox) : V8Value :=
  match err.v8Handle with
  | some h => h
  | none => V8Value.typeError err.message

/-- Embeds `dyn_import_error` (runtime.rs lines 1006-1037): remove the stored
resolver of the load id (an `expect` panic when absent), build the rejection
value from the attached engine exception when the error carries one and
otherwise as a TypeError from the error display string, reject the resolver,
and run a microtask checkpoint. -/
def dyn_import_error (st : JsRuntimeState) (id : Nat) (err : ErrBox) :
    Outcome Unit × JsRuntimeState × List RtEvent :=
  if st.global_context.isNone then (.panicked "unwrap on global_context", st, [])
  else
    match removeEntry st.dyn_import_map id with
    | none => (.panicked "Invalid dyn import id", st, [])
    | some (resolver, map2) =>
      let exception := dyn_import_exception err
      (.ok (), { st with dyn_import_map := map2 },
        [.resolverRejected resolver exception, .microtaskCheckpoint])

/-- Embeds `dyn_import_done` (runtime.rs lines 1039-1075): assert the module id
is not the sentinel, remove the stored resolver (an `expect` panic when
absent), look up the module (panic when missing), assert it evaluated, resolve
the resolver with the module namespace, and run a microtask checkpoint. -/
def dyn_import_done (st : JsRuntimeState) (id : Nat) (mod_id : Nat) :
    Outcome Unit × JsRuntimeState × List RtEvent :=
  if mod_id = 0 then (.panicked "assertion failed: mod_id != 0", st, [])
  else if st.global_context.isNone then (.panicked "unwrap on global_context", st, [])
  else
    match removeEntry st.dyn_import_map id with
    | none => (.panicked "Invalid dyn import id", st, [])
    | some (resolver, map2) =>
      let st := { st with dyn_import_map := map2 }
      match st.modules.get_info mod_id with
      | none => (.panicked "Dyn import module info not found", st, [])
      | some _ =>
        if st.engine.statusOf mod_id == ModuleStatus.evaluated then
          (.ok (), st, [.resolverResolved resolver mod_id, .microtaskCheckpoint])
        else (.panicked "assertion failed: status is Evaluated", st, [])

/-- Polls the pending fetch set of one load: yields the result of a ready
fetch, removing it, or nothing when no fetch is ready. -/
def findReadyFetch : List PendingFetch →
    Option (Except ErrBox ModuleSource × List PendingFetch)
  | [] => none
  | f :: rest =>
    match f.result with
    | .ready r => some (r, rest)
    | .pending => (findReadyFetch rest).map (fun p => (p.1, f :: p.2))

/-- Modelled from the spec: polling the module-source stream of a
RecursiveModuleLoad (spec section 4.6.4; the Stream impl lives in modules.rs,
not under src). A load in state Done yields end of stream; otherwise a ready
fetch result is yielded; with no ready fetch the stream is pending. -/
def streamNext (load : RecursiveModuleLoad) :
    Option (Option (Except ErrBox ModuleSource) × RecursiveModuleLoad) :=
  if load.state == LoadState.done then some (none, load)
  else
    match findReadyFetch load.pending with
    | none => none
    | some (r, rest) => some (some r, { load with pending := rest })

/-- Polls the `pending_dyn_imports` FuturesUnordered set once: the stream
event of the first load whose stream is ready, together with that load and the
other loads. -/
def findReadyLoad : List RecursiveModuleLoad →
    Option (Option (Except ErrBox ModuleSource) × RecursiveModuleLoad × List RecursiveModuleLoad)
  | [] => none
  | l :: rest =>
    match streamNext l with
    | some (item, l2) => some (item, l2, rest)
    | none => (findReadyLoad rest).map (fun p => (p.1, p.2.1, l :: p.2.2))

/-- Embeds `prepare_dyn_imports` (runtime.rs lines 1077-1109): drain ready
prepare futures; a prepared load moves into `pending_dyn_imports`; a prepare
error rejects the dynamic import. The source loop is unbounded; fuel bounds
the model. -/
def prepare_dyn_imports (fuel : Nat) (st : JsRuntimeState) :
    Outcome Unit × JsRuntimeState × List RtEvent :=
  match fuel with
  | 0 => (.fuelOut, st, [])
  | fuel + 1 =>
    match findReady st.preparing_dyn_imports with
    | none => (.ok (), st, [])
    | some ((dyn_import_id, prepare_result), rest) =>
      let st := { st with preparing_dyn_imports := rest }
      match prepare_result with
      | .ok load =>
        prepare_dyn_imports fuel
          { st with pending_dyn_imports := st.pending_dyn_imports ++ [load] }
      | .error e =>
        match dyn_import_error st dyn_import_id e with
        | (.ok _, st2, ev) =>
          let r := prepare_dyn_imports fuel st2
          (r.1, r.2.1, ev ++ r.2.2)
        | other => other

/-- Embeds `poll_dyn_imports` (runtime.rs lines 1111-1164): drive every ready
load stream. A fetched source is registered (errors reject the import); the
load is then polled again. End of stream means the root is loaded: the host
instantiates it (an instantiate error propagates out of the poll via the
question mark operator), evaluates it, and resolves or rejects the deferred
promise. The source loop is unbounded; fuel bounds the model. -/
def poll_dyn_imports (fuel : Nat) (st : JsRuntimeState) :
    Outcome Unit × JsRuntimeState × List RtEvent :=
  match fuel with
  | 0 => (.fuelOut, st, [])
  | fuel + 1 =>
    match findReadyLoad st.pending_dyn_imports with
    | none => (.ok (), st, [])
    | some (maybe_result, load, rest) =>
      let st := { st with pending_dyn_imports := rest }
      let dyn_import_id := load.id
      match maybe_result with
      | some (.ok info) =>
        match register_during_load st info load with
        | (.ok load2, st2, ev) =>
          let st3 := { st2 with pending_dyn_imports := st2.pending_dyn_imports ++ [load2] }
          let r := poll_dyn_imports fuel st3
          (r.1, r.2.1, ev ++ r.2.2)
        | (.err e, st2, ev) =>
          match dyn_import_error st2 dyn_import_id e with
          | (.ok _, st3, ev2) =>
            let r := poll_dyn_imports fuel st3
            (r.1, r.2.1, ev ++ ev2 ++ r.2.2)
          | (o2, st3, ev2) => (o2, st3, ev ++ ev2)
        | (.panicked m, st2, ev) => (.panicked m, st2, ev)
        | (.fuelOut, st2, ev) => (.fuelOut, st2, ev)
      | some (.error e) =>
        match dyn_import_error st dyn_import_id e with
        | (.ok _, st2, ev) =>
          let r := poll_dyn_imports fuel st2
          (r.1, r.2.1, ev ++ r.2.2)
        | other => other
      | none =>
        match load.root_module_id with
        | none => (.panicked "unwrap on root_module_id", st, [])
        | some module_id =>
          match mod_instantiate st module_id with
          | (.ok _, st2, ev) =>
            match mod_evaluate st2 module_id with
            | (.ok _, st3, ev2) =>
              match dyn_import_done st3 dyn_import_id module_id with
              | (.ok _, st4, ev3) =>
                let r := poll_dyn_imports fuel st4
                (r.1, r.2.1, ev ++ ev2 ++ ev3 ++ r.2.2)
              | (o3, st4, ev3) => (o3, st4, ev ++ ev2 ++ ev3)
            | (.err e, st3, ev2) =>
              match dyn_import_error st3 dyn_import_id e with
              | (.ok _, st4, ev3) =>
                let r := poll_dyn_imports fuel st4
                (r.1, r.2.1, ev ++ ev2 ++ ev3 ++ r.2.2)
              | (o3, st4, ev3) => (o3, st4, ev ++ ev2 ++ ev3)
            | (o2, st3, ev2) => (o2, st3, ev ++ ev2)
          | (o1, st2, ev) => (o1, st2, ev)

/-- Sequencing of poll steps: run the continuation only on ok, threading the
state and concatenating the event trace (errors, panics and fuel exhaustion
short-circuit, as the question mark operator and process aborts do). -/
def stepSeq (r : Outcome Unit × JsRuntimeState × List RtEvent)
    (f : JsRuntimeState → Outcome Unit × JsRuntimeState × List RtEvent) :
    Outcome Unit × JsRuntimeState × List RtEvent :=
  match r with
  | (.ok _, st, ev) =>
    let r2 := f st
    (r2.1, r2.2.1, ev ++ r2.2.2)
  | other => other

/-- The body of one poll of the JsRuntime future (runtime.rs lines 538-637),
up to but excluding the final readiness decision: drain preparing dynamic
imports, drive pending dynamic imports, enter the global context (a panic when
the context has been dropped), surface a recorded unhandled rejection, drain
the two pending-op sets into the SharedQueue sharing the single overflow slot,
deliver the batched responses through the receive callback with the drain
assert, deliver the overflow response if any, drain macrotasks, and check
rejections again. -/
def pollBody (fuel : Nat) (st : JsRuntimeState) :
    Outcome Unit × JsRuntimeState × List RtEvent :=
  stepSeq
    (if st.preparing_dyn_imports.isEmpty then (.ok (), st, [])
     else prepare_dyn_imports fuel st) (fun st1 =>
  stepSeq
    (if st1.pending_dyn_imports.isEmpty then (.ok (), st1, [])
     else poll_dyn_imports fuel st1) (fun st2 =>
  stepSeq
    (if st2.global_context.isNone then (.panicked "unwrap on global_context", st2, [])
     else (.ok (), st2, [])) (fun st3 =>
  stepSeq (check_promise_exceptions st3) (fun st4 =>
  let d := drainPhase st4.shared st4.pending_ops st4.pending_unref_ops
  let st5 :=
    { st4 with
      shared := d.queue
      pending_ops := d.ops
      pending_unref_ops := d.unref_ops
      have_unpolled_ops := false }
  stepSeq (poll_step7 st5) (fun st6 =>
  stepSeq
    (match d.overflow_response with
     | some (op_id, buf) => async_op_response st6 (some (op_id, buf))
     | none => (.ok (), st6, [])) (fun st7 =>
  stepSeq (drain_macrotasks st7) (fun st8 =>
  check_promise_exceptions st8)))))))

/-- Result of polling the JsRuntime future. -/
inductive PollOutcome where
  | readyOk
  | readyErr (e : ErrBox)
  | pend
  | panicked (msg : String)
  | fuelOut
  deriving DecidableEq, Repr

/-- True on the `readyOk` constructor. -/
def PollOutcome.isReadyOk : PollOutcome → Bool
  | .readyOk => true
  | _ => false

/-- True on the outcomes in which the poll did not run to its readiness check:
a surfaced error, a panic, or fuel exhaustion of the model. -/
def PollOutcome.isAbnormal : PollOutcome → Bool
  | .readyErr _ => true
  | .panicked _ => true
  | .fuelOut => true
  | _ => false

/-- The snapshot builder: producing the startup blob reads the isolate heap,
which at that point reflects the runtime state it is given; the handling flag
mirrors `v8::FunctionCodeHandling`. -/
inductive FunctionCodeHandling where
  | clear
  | keep

/-- The engine snapshot creator held by a will-snapshot runtime; `create_blob`
is the engine oracle producing the startup blob (None models the failed
creation that the source unwraps). -/
structure SnapshotCreator where
  create_blob : JsRuntimeState → FunctionCodeHandling → Option Nat

/-- Embeds the outer `JsRuntime` struct (runtime.rs lines 116-125) in the
fields the claims observe: the optional snapshot creator, the has-snapshotted
flag, and the lazy-bootstrap flag. -/
structure JsRuntime where
  snapshot_creator : Option SnapshotCreator
  has_snapshotted : Bool
  needs_init : Bool

/-- Embeds `JsRuntime::snapshot` (runtime.rs lines 461-478): assert the runtime
was built with will-snapshot (the creator is present), drop the persistent
global context reference and replace the module registry with the empty one
(`std::mem::take`), ask the builder for a blob keeping function code, mark
has-snapshotted, and return the blob. -/
def JsRuntime.snapshot (rt : JsRuntime) (st : JsRuntimeState) :
    Outcome Nat × JsRuntime × JsRuntimeState :=
  match rt.snapshot_creator with
  | none => (.panicked "assertion failed: snapshot_creator.is_some()", rt, st)
  | some creator =>
    let st := { st with global_context := none }
    let st := { st with modules := Modules.empty }
    match creator.create_blob st FunctionCodeHandling.keep with
    | none => (.panicked "unwrap on create_blob", rt, st)
    | some blob => (.ok blob, { rt with has_snapshotted := true }, st)

/-- Embeds one poll of `impl Future for JsRuntime` (runtime.rs lines 535-652):
run shared_init (the bootstrap flag clears; the built-in script itself is not
modelled), run the poll body, and then decide readiness: Ready(Ok) exactly
when the reffed pending-op set, the pending dynamic-import set and the
preparing dynamic-import set are all empty; otherwise Pending. Errors and
panics of the body surface as such. -/
def JsRuntime.poll (fuel : Nat) (rt : JsRuntime) (st : JsRuntimeState) :
    PollOutcome × JsRuntime × JsRuntimeState × List RtEvent :=
  let rt := { rt with needs_init := false }
  match pollBody fuel st with
  | (.ok _, st2, ev) =>
    if st2.pending_ops.isEmpty && st2.pending_dyn_imports.isEmpty
        && st2.preparing_dyn_imports.isEmpty then
      (.readyOk, rt, st2, ev)
    else
      (.pend, rt, st2, ev)
  | (.err e, st2, ev) => (.readyErr e, rt, st2, ev)
  | (.panicked m, st2, ev) => (.panicked m, rt, st2, ev)
  | (.fuelOut, st2, ev) => (.fuelOut, rt, st2, ev)

/-- Display string of an engine value, used by the default error wrap
function of the fixtures. -/
def V8Value.displayMsg : V8Value → String
  | .error m => m
  | .typeError m => m
  | .null => "null"
  | .undefined => "undefined"
  | .other _ => "object"

/-- Fixture: the default error wrap function (the source default is
`JsError::create`, which keeps the structured error). -/
def defaultCreateFn : JsError → ErrBox :=
  fun j => ⟨j.exception.displayMsg, none⟩

/-- Fixture: a loader that rejects every resolve, like the NoopModuleLoader
default of the source. -/
def noopLoader : Loader :=
  ⟨fun _ _ _ => .error ⟨"Module loading is not supported", none⟩⟩

/-- Fixture: an engine oracle with fresh ids from 1, all modules reported
uninstantiated, and successful instantiate and evaluate. -/
def testEngine : Engine :=
  { nextId := 1
    statusOf := fun _ => ModuleStatus.uninstantiated
    exceptionOf := fun _ => V8Value.other 0
    instantiateOutcome := fun _ => .ok ()
    evaluateOutcome := fun _ => (ModuleStatus.evaluated, some 1) }

/-- Fixture: a small shared queue, empty, room for 8 records and 16 payload
bytes. -/
def testQueue : SharedQueue := ⟨8, 16, []⟩

/-- Fixture: a freshly constructed runtime state with no callbacks registered,
nothing pending, and the global context present. -/
def baseState : JsRuntimeState :=
  { global_context := some ()
    js_recv_cb := none
    js_macrotask_cb := none
    pending_promise_exceptions := []
    js_error_create_fn := defaultCreateFn
    shared := testQueue
    pending_ops := []
    pending_unref_ops := []
    have_unpolled_ops := false
    modules := Modules.empty
    loader := noopLoader
    dyn_import_map := []
    preparing_dyn_imports := []
    pending_dyn_imports := []
    is_execution_terminating := false
    engine := testEngine }

/-- Fixture: a runtime constructed without will-snapshot, before bootstrap. -/
def baseRt : JsRuntime := ⟨none, false, true⟩

/-- C5: for every exception passed to exception_to_err_result while execution
termination is in effect, termination is first cancelled (the flag during
error construction is false), a synthesized Error with message "execution
terminated" is substituted when the exception value is null or undefined, the
structured host error is built through the error wrap function from that
exception, and termination is re-asserted before the function returns, so the
requested cancellation remains in effect afterwards. -/
theorem c5_exception_to_err_result_terminating (create_fn : JsError → ErrBox)
    (exception : V8Value) :
    termination_state_during_error_build true = false ∧
    (exception_to_err_result create_fn true exception).1 = true ∧
    (exception_to_err_result create_fn true exception).2 =
      create_fn (JsError.from_v8_exception
        (if exception.is_null_or_undefined then V8Value.error "execution terminated"
         else exception)) := by
  refine ⟨rfl, rfl, ?_⟩
  simp only [exception_to_err_result, termination_state_during_error_build, Bool.true_and]

/-- C10: every overflow response buffer is converted by
boxed_slice_to_uint8array, which requires a non-empty buffer; an async op
response with a zero-length buffer taking the overflow delivery path therefore
aborts the runtime instead of delivering an empty Uint8Array. -/
theorem c10_empty_overflow_buffer_aborts (st : JsRuntimeState) (op_id : Nat) :
    (async_op_response st (some (op_id, []))).1.isPanicked = true ∧
    boxed_slice_to_uint8array [] = none := by
  constructor
  · cases h : st.js_recv_cb with
    | none => simp [async_op_response, h, Outcome.isPanicked]
    | some cb =>
      simp [async_op_response, h, boxed_slice_to_uint8array, Outcome.isPanicked]
  · rfl

/-- C9: snapshot() on a will-snapshot runtime removes the persistent global
context reference and replaces the module registry with the empty one before
the builder creates the blob with function code kept (the blob is produced
from the cleared state), sets has_snapshotted, and returns the blob. -/
theorem c9_snapshot_clears_state (rt : JsRuntime) (st : JsRuntimeState)
    (creator : SnapshotCreator) (blob : Nat)
    (h1 : rt.snapshot_creator = some creator)
    (h2 : creator.create_blob
        { st with global_context := none, modules := Modules.empty }
        FunctionCodeHandling.keep = some blob) :
    JsRuntime.snapshot rt st =
      (.ok blob, { rt with has_snapshotted := true },
       { st with global_context := none, modules := Modules.empty }) := by
  unfold JsRuntime.snapshot
  rw [h1]
  dsimp only
  rw [h2]

/-- Fixture: a snapshot creator whose blob oracle returns the token 7. -/
def c9creator : SnapshotCreator := ⟨fun _ _ => some 7⟩

/-- Fixture: a will-snapshot runtime holding c9creator. -/
def c9rt : JsRuntime := ⟨some c9creator, false, true⟩

/-- Witness for C9 at a concrete will-snapshot runtime. -/
theorem c9_snapshot_clears_state_witness :
    JsRuntime.snapshot c9rt baseState =
      (.ok 7, { c9rt with has_snapshotted := true },
       { baseState with global_context := none, modules := Modules.empty }) :=
  c9_snapshot_clears_state c9rt baseState c9creator 7 rfl rfl

/-- C8 amended: with the persistent global context present, mod_instantiate
with id 0 and no module registered under id 0 is a silent no-op: Ok(()), state
unchanged, no engine action. With the global context removed (as snapshot()
leaves it), the handle-scope setup panics first, so the call is not a no-op
for every such runtime state. -/
theorem c8_mod_instantiate_id_zero (st1 st2 : JsRuntimeState)
    (h1 : st1.global_context = some ())
    (h2 : st1.modules.get_info 0 = none)
    (h3 : st2.global_context = none) :
    mod_instantiate st1 0 = (.ok (), st1, []) ∧
    (mod_instantiate st2 0).1 = .panicked "unwrap on global_context" := by
  constructor
  · unfold mod_instantiate
    rw [h1, h2]
    simp
  · unfold mod_instantiate
    rw [h3]
    simp

/-- Fixture: a runtime state whose global context has been dropped (the state
snapshot() leaves behind), with no module registered. -/
def c8state : JsRuntimeState := { baseState with global_context := none }

/-- Counterexample to C8 as stated: c8state has no module registered under
id 0, yet mod_instantiate 0 panics on the global-context unwrap instead of
silently returning Ok(()). -/
theorem c8_mod_instantiate_id_zero_cex :
    c8state.modules.get_info 0 = none ∧
    (mod_instantiate c8state 0).1 = .panicked "unwrap on global_context" ∧
    (mod_instantiate c8state 0).1 ≠ .ok () := by
  refine ⟨rfl, rfl, ?_⟩
  decide

/-- Witness for the amended C8 at concrete states. -/
theorem c8_mod_instantiate_id_zero_witness :
    mod_instantiate baseState 0 = (.ok (), baseState, []) ∧
    (mod_instantiate c8state 0).1 = .panicked "unwrap on global_context" :=
  c8_mod_instantiate_id_zero baseState c8state rfl rfl rfl

/-- C4: in every poll in which the SharedQueue is non-empty at delivery time,
the host invokes the script-side receive callback with no arguments and then
asserts the queue drained: if the callback returns without throwing and left
the queue non-empty the runtime aborts on the assert, and if it drained the
queue the step succeeds. -/
theorem c4_step7_asserts_drained (st : JsRuntimeState)
    (cb : Option (Nat × List Nat) → SharedQueue → SharedQueue × Option V8Value)
    (q2 : SharedQueue)
    (hq : st.shared.size > 0)
    (hcb : st.js_recv_cb = some cb)
    (hr : cb none st.shared = (q2, none)) :
    (q2.size = 0 →
      poll_step7 st = (.ok (), { st with shared := q2 }, [.recvBatchCall])) ∧
    (q2.size ≠ 0 →
      poll_step7 st =
        (.panicked "assertion failed: left == right (shared.size, 0)",
         { st with shared := q2 }, [.recvBatchCall])) := by
  unfold poll_step7 async_op_response
  rw [hcb]
  simp only [hq, if_pos, hr]
  constructor
  · intro h0
    simp [h0, hq]
  · intro h0
    simp [h0, hq]

/-- Fixture: the receive callback that shifts every record off the queue. -/
def c4drainCb : Option (Nat × List Nat) → SharedQueue → SharedQueue × Option V8Value :=
  fun _ q => ({ q with records := [] }, none)

/-- Fixture: a state with one queued response and the draining callback
registered. -/
def c4state : JsRuntimeState :=
  { baseState with
    shared := { testQueue with records := [(1, [42])] }
    js_recv_cb := some c4drainCb }

/-- Witness for C4: at c4state the callback drains the queue and step 7
succeeds with the drain assert passing. -/
theorem c4_step7_asserts_drained_witness :
    poll_step7 c4state =
      (.ok (), { c4state with shared := { testQueue with records := [] } },
       [.recvBatchCall]) :=
  (c4_step7_asserts_drained c4state c4drainCb { testQueue with records := [] }
    (by decide) rfl rfl).1 rfl

/-- C3 amended: when the SharedQueue is empty the batched-delivery step is
skipped regardless of callback registration; but when queued responses exist
and no receive callback has been registered, the poll panics on the expect
(Deno.core.recv has not been called) rather than skipping silently. -/
theorem c3_step7_no_recv_cb (st1 st2 : JsRuntimeState)
    (h1 : st1.js_recv_cb = none)
    (h2 : st1.shared.size > 0)
    (h3 : st2.shared.size = 0) :
    (poll_step7 st1).1 = .panicked "Deno.core.recv has not been called." ∧
    poll_step7 st2 = (.ok (), st2, []) := by
  constructor
  · unfold poll_step7 async_op_response
    rw [h1]
    simp [h2]
  · unfold poll_step7
    simp [h3]

/-- Fixture: a state with one queued response and no receive callback. -/
def c3state : JsRuntimeState :=
  { baseState with shared := { testQueue with records := [(1, [42])] } }

/-- Counterexample to C3 as stated: with no receive callback registered and a
queued response, delivery is not skipped silently; the poll panics on the
expect. -/
theorem c3_step7_no_recv_cb_cex :
    c3state.js_recv_cb = none ∧
    (poll_step7 c3state).1 = .panicked "Deno.core.recv has not been called." ∧
    (poll_step7 c3state).1 ≠ .ok () := by
  refine ⟨rfl, rfl, ?_⟩
  decide

/-- Witness for the amended C3 at concrete states. -/
theorem c3_step7_no_recv_cb_witness :
    (poll_step7 c3state).1 = .panicked "Deno.core.recv has not been called." ∧
    poll_step7 baseState = (.ok (), baseState, []) :=
  c3_step7_no_recv_cb c3state baseState rfl (by decide) rfl

theorem foldl_addImport_preserves (m : Modules) (referrer : String)
    (imports : List String) (ld : RecursiveModuleLoad) :
    (imports.foldl (fun l s =>
        if m.is_registered s then l else l.add_import s referrer) ld).state = ld.state ∧
    (imports.foldl (fun l s =>
        if m.is_registered s then l else l.add_import s referrer) ld).root_module_id
      = ld.root_module_id := by
  induction imports generalizing ld with
  | nil => exact ⟨rfl, rfl⟩
  | cons hd tl ih =>
    simp only [List.foldl_cons]
    have step : ((if m.is_registered hd then ld else ld.add_import hd referrer).state = ld.state) ∧
        ((if m.is_registered hd then ld else ld.add_import hd referrer).root_module_id
          = ld.root_module_id) := by
      by_cases h : m.is_registered hd
      · simp [h]
      · simp [h, RecursiveModuleLoad.add_import]
    obtain ⟨ihs, ihr⟩ := ih (if m.is_registered hd then ld else ld.add_import hd referrer)
    exact ⟨ihs.trans step.1, ihr.trans step.2⟩

theorem register_finish_ok (st : JsRuntimeState) (load : RecursiveModuleLoad)
    (module_id : Nat) (referrer : String) (load2 : RecursiveModuleLoad)
    (heq : (register_finish st load module_id referrer).1 = Outcome.ok load2) :
    load.state.rank ≤ load2.state.rank ∧
    (load.state ≠ LoadState.done → load2.state = LoadState.done → load2.pending = []) ∧
    load2.root_module_id =
      (if load.state = LoadState.loadingRoot then some module_id
       else load.root_module_id) := by
  unfold register_finish at heq
  cases hgc : st.modules.get_children module_id with
  | none => rw [hgc] at heq; simp at heq
  | some imports =>
    rw [hgc] at heq
    dsimp only at heq
    obtain ⟨hfs, hfr⟩ := foldl_addImport_preserves st.modules referrer imports load
    split at heq
    case isTrue hroot3 =>
      rw [hfs] at hroot3
      have hroot : load.state = LoadState.loadingRoot := by
        exact beq_iff_eq.mp hroot3
      split at heq
      case isTrue hemp =>
        injection heq with hX
        subst hX
        refine ⟨by simp [hroot, LoadState.rank], fun _ _ => ?_, by simp [hroot]⟩
        simpa [List.isEmpty_iff] using hemp
      case isFalse hemp =>
        injection heq with hX
        subst hX
        exact ⟨by simp [hroot, LoadState.rank], fun _ hd => by simp at hd,
          by simp [hroot]⟩
    case isFalse hroot3 =>
      rw [hfs] at hroot3
      have hroot : load.state ≠ LoadState.loadingRoot := by
        intro h
        exact hroot3 (by simp [h])
      split at heq
      case isTrue hemp =>
        injection heq with hX
        subst hX
        refine ⟨?_, fun _ _ => by simpa [List.isEmpty_iff] using hemp,
          by simp [hroot, hfr]⟩
        cases h : load.state <;> simp [LoadState.rank]
      case isFalse hemp =>
        injection heq with hX
        subst hX
        refine ⟨by rw [hfs], fun hnd hdone => ?_, by simp [hroot, hfr]⟩
        rw [hfs] at hdone
        exact absurd hdone hnd

theorem c7_from_finish (stA : JsRuntimeState) (load load2 : RecursiveModuleLoad)
    (module_id : Nat) (referrer : String)
    (hpre : load.state ≠ LoadState.loadingRoot → load.root_module_id.isSome)
    (heq : (register_finish stA load module_id referrer).1 = Outcome.ok load2) :
    load.state.rank ≤ load2.state.rank ∧
    (load.state ≠ LoadState.done → load2.state = LoadState.done →
      load2.root_module_id.isSome ∧ load2.pending = []) := by
  obtain ⟨ha, hb, hc⟩ := register_finish_ok stA load module_id referrer load2 heq
  refine ⟨ha, fun hnd hdone => ⟨?_, hb hnd hdone⟩⟩
  rw [hc]
  by_cases h : load.state = LoadState.loadingRoot
  · simp [h]
  · simp only [h, if_false]
    exact hpre h

/-- C7: every state transition performed by register_during_load moves only
forward along LoadingRoot, LoadingImports, Done (the rank never decreases),
and whenever the call moves the load into Done the root module id is set and
the pending set is empty. The precondition reflects the construction of loads:
a load past LoadingRoot has its root module id recorded. -/
theorem c7_register_during_load_forward (st : JsRuntimeState) (info : ModuleSource)
    (load load2 : RecursiveModuleLoad)
    (hpre : load.state ≠ LoadState.loadingRoot → load.root_module_id.isSome)
    (heq : (register_during_load st info load).1 = Outcome.ok load2) :
    load.state.rank ≤ load2.state.rank ∧
    (load.state ≠ LoadState.done → load2.state = LoadState.done →
      load2.root_module_id.isSome ∧ load2.pending = []) := by
  unfold register_during_load at heq
  dsimp only at heq
  split at heq
  · exact c7_from_finish _ load load2 _ _ hpre heq
  · split at heq
    · exact c7_from_finish _ load load2 _ _ hpre heq
    · exact Outcome.noConfusion heq
    · exact Outcome.noConfusion heq
    · exact Outcome.noConfusion heq

/-- Fixture: a fresh main load for file:///a.js with the root fetch already
consumed. -/
def c7load : RecursiveModuleLoad :=
  { id := 1
    state := LoadState.loadingRoot
    root_module_id := none
    pending := []
    is_dyn_import := false
    loadFn := fun _ _ => FutState.pending }

/-- Fixture: the source of file:///a.js with no imports. -/
def c7info : ModuleSource :=
  { code := ModCode.src []
    module_url_specified := "file:///a.js"
    module_url_found := "file:///a.js" }

/-- Fixture: the load after registering the root of c7load. -/
def c7load2 : RecursiveModuleLoad :=
  { c7load with root_module_id := some 1, state := LoadState.done }

/-- Witness for C7 at a concrete registration that moves a load from
LoadingRoot to Done. -/
theorem c7_register_during_load_forward_witness :
    c7load.state.rank ≤ c7load2.state.rank ∧
    (c7load.state ≠ LoadState.done → c7load2.state = LoadState.done →
      c7load2.root_module_id.isSome ∧ c7load2.pending = []) :=
  c7_register_during_load_forward baseState c7info c7load c7load2
    (fun h => absurd rfl h) rfl

theorem exception_to_err_dyn_map (st : JsRuntimeState) (exc : V8Value) :
    ((exception_to_err st exc).1).dyn_import_map = st.dyn_import_map := rfl

theorem mod_instantiate_link_err (st : JsRuntimeState) (mid : Nat)
    (info : ModuleInfo) (exc : V8Value)
    (h1 : st.global_context = some ())
    (h2 : st.modules.get_info mid = some info)
    (h3 : st.engine.statusOf mid ≠ ModuleStatus.errored)
    (h4 : st.engine.instantiateOutcome mid = .error exc) :
    mod_instantiate st mid =
      (.err (exception_to_err st exc).2, (exception_to_err st exc).1,
       [RtEvent.engineInstantiate mid]) := by
  unfold mod_instantiate
  rw [h1, h2]
  have hb : (st.engine.statusOf mid == ModuleStatus.errored) = false := by
    simp [h3]
  rw [hb]
  simp only [Option.isNone_some, Bool.false_eq_true, if_false]
  rw [h4]

/-- C6 amended: a dynamic-import failure routed through dyn_import_error
rejects the stored resolver with the attached engine exception when the error
carries one and otherwise with a fresh TypeError from the error display string,
removes the resolver entry, and runs a microtask checkpoint afterwards; a
success through dyn_import_done resolves the resolver with the module
namespace, removes the entry, and runs a checkpoint; but a failure at the
instantiate stage of the root propagates out of poll_dyn_imports as an error
without rejecting the resolver or clearing its dyn_import_map entry. -/
theorem c6_dyn_import_resolver_contract
    (sta : JsRuntimeState) (ida : Nat) (erra : ErrBox) (ra : Nat)
    (mapa : List (Nat × Nat))
    (ha1 : sta.global_context = some ())
    (ha2 : removeEntry sta.dyn_import_map ida = some (ra, mapa))
    (stb : JsRuntimeState) (idb mb rb : Nat) (mapb : List (Nat × Nat))
    (infob : ModuleInfo)
    (hb0 : mb ≠ 0)
    (hb1 : stb.global_context = some ())
    (hb2 : removeEntry stb.dyn_import_map idb = some (rb, mapb))
    (hb3 : stb.modules.get_info mb = some infob)
    (hb4 : stb.engine.statusOf mb = ModuleStatus.evaluated)
    (stc : JsRuntimeState) (loadc : RecursiveModuleLoad) (mc : Nat)
    (infoc : ModuleInfo) (excc : V8Value) (fuelc : Nat)
    (hc1 : stc.pending_dyn_imports = [loadc])
    (hc2 : loadc.state = LoadState.done)
    (hc3 : loadc.root_module_id = some mc)
    (hc4 : stc.global_context = some ())
    (hc5 : stc.modules.get_info mc = some infoc)
    (hc6 : stc.engine.statusOf mc ≠ ModuleStatus.errored)
    (hc7 : stc.engine.instantiateOutcome mc = .error excc) :
    (dyn_import_error sta ida erra =
      (.ok (), { sta with dyn_import_map := mapa },
       [.resolverRejected ra (dyn_import_exception erra), .microtaskCheckpoint])) ∧
    (dyn_import_done stb idb mb =
      (.ok (), { stb with dyn_import_map := mapb },
       [.resolverResolved rb mb, .microtaskCheckpoint])) ∧
    ((poll_dyn_imports (fuelc + 1) stc).1.isErr = true ∧
     (poll_dyn_imports (fuelc + 1) stc).2.1.dyn_import_map = stc.dyn_import_map ∧
     (poll_dyn_imports (fuelc + 1) stc).2.2 = [RtEvent.engineInstantiate mc]) := by
  refine ⟨?_, ?_, ?_⟩
  · unfold dyn_import_error
    rw [ha1, ha2]
    rfl
  · unfold dyn_import_done
    rw [if_neg hb0, hb1, hb2]
    dsimp only
    rw [hb3, hb4]
    rfl
  · have hfrl : findReadyLoad stc.pending_dyn_imports = some (none, loadc, []) := by
      rw [hc1]
      unfold findReadyLoad streamNext
      rw [hc2]
      rfl
    have hmi := mod_instantiate_link_err
      { stc with pending_dyn_imports := [] } mc infoc excc hc4 hc5 hc6 hc7
    unfold poll_dyn_imports
    rw [hfrl]
    dsimp only
    rw [hc3]
    dsimp only
    rw [hmi]
    exact ⟨rfl, rfl, rfl⟩

/-- Fixture: an engine reporting every module instantiated and failing every
instantiate with a link error. -/
def c6engine : Engine :=
  { testEngine with
    statusOf := fun _ => ModuleStatus.instantiated
    instantiateOutcome := fun _ => .error (V8Value.error "link error") }

/-- Fixture: a dynamic-import load (id 7) whose graph is fully fetched, with
root module 5. -/
def c6load : RecursiveModuleLoad :=
  { id := 7
    state := LoadState.done
    root_module_id := some 5
    pending := []
    is_dyn_import := true
    loadFn := fun _ _ => FutState.pending }

/-- Fixture: a state holding the resolver of load 7 whose root module fails to
instantiate. -/
def c6state : JsRuntimeState :=
  { baseState with
    dyn_import_map := [(7, 99)]
    pending_dyn_imports := [c6load]
    modules := Modules.empty.register 5 "file:///m.js" false []
    engine := c6engine }

/-- Counterexample to C6 as stated: the dynamic import of c6state fails at the
instantiate stage, yet the poll surfaces the error without rejecting the
stored resolver (no resolver event occurs) and without removing the entry from
dyn_import_map. -/
theorem c6_dyn_import_resolver_contract_cex :
    (poll_dyn_imports 2 c6state).1.isErr = true ∧
    (poll_dyn_imports 2 c6state).2.1.dyn_import_map = [(7, 99)] ∧
    (poll_dyn_imports 2 c6state).2.2 = [RtEvent.engineInstantiate 5] :=
  ⟨rfl, rfl, rfl⟩

/-- Fixture: a state holding the resolver of load 4 only. -/
def c6werrState : JsRuntimeState :=
  { baseState with dyn_import_map := [(4, 40)] }

/-- Fixture: a state holding the resolver of load 3, with module 6 registered
and reported evaluated. -/
def c6wdoneState : JsRuntimeState :=
  { baseState with
    dyn_import_map := [(3, 50)]
    modules := Modules.empty.register 6 "file:///n.js" false []
    engine := { testEngine with statusOf := fun _ => ModuleStatus.evaluated } }

/-- Witness for the amended C6 at concrete states: a load failure rejecting
through dyn_import_error, a success resolving through dyn_import_done, and an
instantiate-stage failure leaving the resolver entry in place. -/
theorem c6_dyn_import_resolver_contract_witness :
    (dyn_import_error c6werrState 4 ⟨"load failed", none⟩ =
      (.ok (), { c6werrState with dyn_import_map := [] },
       [.resolverRejected 40 (dyn_import_exception ⟨"load failed", none⟩),
        .microtaskCheckpoint])) ∧
    (dyn_import_done c6wdoneState 3 6 =
      (.ok (), { c6wdoneState with dyn_import_map := [] },
       [.resolverResolved 50 6, .microtaskCheckpoint])) ∧
    ((poll_dyn_imports (1 + 1) c6state).1.isErr = true ∧
     (poll_dyn_imports (1 + 1) c6state).2.1.dyn_import_map = c6state.dyn_import_map ∧
     (poll_dyn_imports (1 + 1) c6state).2.2 = [RtEvent.engineInstantiate 5]) :=
  c6_dyn_import_resolver_contract c6werrState 4 ⟨"load failed", none⟩ 40 [] rfl rfl
    c6wdoneState 3 6 50 [] ⟨"file:///n.js", false, []⟩ (by decide) rfl rfl rfl rfl
    c6state c6load 5 ⟨"file:///m.js", false, []⟩ (V8Value.error "link error") 1
    rfl rfl rfl rfl rfl (by decide) rfl

/-- True on the overflow form of the receive-callback invocation. -/
def isOverflowEvent : RtEvent → Bool
  | .recvOverflowCall _ _ => true
  | _ => false

theorem check_promise_exceptions_events (st : JsRuntimeState) :
    (check_promise_exceptions st).2.2 = [] := by
  unfold check_promise_exceptions
  split <;> rfl

theorem dyn_import_error_ovf (st : JsRuntimeState) (id : Nat) (err : ErrBox) :
    ((dyn_import_error st id err).2.2).countP isOverflowEvent = 0 := by
  unfold dyn_import_error
  split
  · rfl
  · split <;> rfl

theorem dyn_import_done_ovf (st : JsRuntimeState) (id mod_id : Nat) :
    ((dyn_import_done st id mod_id).2.2).countP isOverflowEvent = 0 := by
  unfold dyn_import_done
  split
  · rfl
  · split
    · rfl
    · split
      · rfl
      · dsimp only
        split
        · rfl
        · split <;> rfl

theorem mod_instantiate_ovf (st : JsRuntimeState) (id : Nat) :
    ((mod_instantiate st id).2.2).countP isOverflowEvent = 0 := by
  unfold mod_instantiate
  split
  · rfl
  · split
    · split
      · rfl
      · split <;> rfl
    · split <;> rfl

theorem mod_evaluate_finish_ovf (st : JsRuntimeState) (id : Nat)
    (status : ModuleStatus) (ev : List RtEvent)
    (h : ev.countP isOverflowEvent = 0) :
    ((mod_evaluate_finish st id status ev).2.2).countP isOverflowEvent = 0 := by
  unfold mod_evaluate_finish
  cases status <;> simpa using h

theorem mod_evaluate_ovf (st : JsRuntimeState) (id : Nat) :
    ((mod_evaluate st id).2.2).countP isOverflowEvent = 0 := by
  unfold mod_evaluate
  split
  · rfl
  · split
    · rfl
    · dsimp only
      split
      · split
        · split
          · exact mod_evaluate_finish_ovf _ _ _ _ rfl
          · rfl
        · split
          · exact mod_evaluate_finish_ovf _ _ _ _ rfl
          · rfl
      · exact mod_evaluate_finish_ovf _ _ _ _ rfl

theorem mod_new_events (st : JsRuntimeState) (main : Bool) (name : String)
    (source : ModCode) : (mod_new st main name source).2.2 = [] := by
  unfold mod_new
  split
  · rfl
  · split
    · rfl
    · split <;> rfl

theorem register_finish_events (st : JsRuntimeState) (load : RecursiveModuleLoad)
    (module_id : Nat) (referrer : String) :
    (register_finish st load module_id referrer).2.2 = [] := by
  unfold register_finish
  split <;> rfl

theorem register_during_load_events (st : JsRuntimeState) (info : ModuleSource)
    (load : RecursiveModuleLoad) :
    (register_during_load st info load).2.2 = [] := by
  unfold register_during_load
  dsimp only
  split
  · exact register_finish_events _ _ _ _
  · split
    all_goals
      rename_i heq
      have h := congrArg (fun t => t.2.2) heq
      dsimp only at h
      rw [mod_new_events] at h
      subst h
      dsimp only
      try rw [register_finish_events]
      try rfl

theorem register_during_load_ovf (st : JsRuntimeState) (info : ModuleSource)
    (load : RecursiveModuleLoad) :
    ((register_during_load st info load).2.2).countP isOverflowEvent = 0 := by
  rw [register_during_load_events]
  rfl

theorem countP_of_eq {α : Type} {f : Outcome α × JsRuntimeState × List RtEvent}
    {o : Outcome α} {st : JsRuntimeState} {ev : List RtEvent}
    (heq : f = (o, st, ev)) (h : (f.2.2).countP isOverflowEvent = 0) :
    ev.countP isOverflowEvent = 0 := by
  rw [heq] at h
  exact h

theorem prepare_dyn_imports_ovf (fuel : Nat) : ∀ st : JsRuntimeState,
    ((prepare_dyn_imports fuel st).2.2).countP isOverflowEvent = 0 := by
  induction fuel with
  | zero => intro st; rfl
  | succ n ih =>
    intro st
    unfold prepare_dyn_imports
    split
    · rfl
    · dsimp only
      split
      · exact ih _
      · split
        · rename_i heq
          have h1 := countP_of_eq heq (dyn_import_error_ovf _ _ _)
          simp [List.countP_append, h1, ih]
        · exact dyn_import_error_ovf _ _ _

theorem poll_dyn_imports_ovf (fuel : Nat) : ∀ st : JsRuntimeState,
    ((poll_dyn_imports fuel st).2.2).countP isOverflowEvent = 0 := by
  induction fuel with
  | zero => intro st; rfl
  | succ n ih =>
    intro st
    unfold poll_dyn_imports
    cases hfr : findReadyLoad st.pending_dyn_imports with
    | none => rfl
    | some p =>
      obtain ⟨maybe_result, load, rest⟩ := p
      dsimp only
      cases maybe_result with
      | some res =>
        cases res with
        | ok info =>
          dsimp only
          rcases hreg : register_during_load
              { st with pending_dyn_imports := rest } info load with ⟨o, st2, ev⟩
          have h1 := countP_of_eq hreg (register_during_load_ovf _ _ _)
          cases o <;> dsimp only
          · simp [List.countP_append, h1, ih]
          · rcases herr : dyn_import_error st2 load.id _ with ⟨o2, st3, ev2⟩
            have h2 := countP_of_eq herr (dyn_import_error_ovf _ _ _)
            cases o2 <;> dsimp only <;> simp [List.countP_append, h1, h2, ih]
          · exact h1
          · exact h1
        | error e =>
          dsimp only
          rcases herr : dyn_import_error
              { st with pending_dyn_imports := rest } load.id e with ⟨o2, st2, ev⟩
          have h1 := countP_of_eq herr (dyn_import_error_ovf _ _ _)
          cases o2 <;> dsimp only <;> simp [List.countP_append, h1, ih]
      | none =>
        dsimp only
        cases hroot : load.root_module_id with
        | none => rfl
        | some mid =>
          dsimp only
          rcases hmi : mod_instantiate
              { st with pending_dyn_imports := rest } mid with ⟨o1, st2, ev⟩
          have h1 := countP_of_eq hmi (mod_instantiate_ovf _ _)
          cases o1 <;> dsimp only
          · rcases hme : mod_evaluate st2 mid with ⟨o2, st3, ev2⟩
            have h2 := countP_of_eq hme (mod_evaluate_ovf _ _)
            cases o2 <;> dsimp only
            · rcases hdd : dyn_import_done st3 load.id mid with ⟨o3, st4, ev3⟩
              have h3 := countP_of_eq hdd (dyn_import_done_ovf _ _ _)
              cases o3 <;> dsimp only <;>
                simp [List.countP_append, h1, h2, h3, ih]
            · rcases hde : dyn_import_error st3 load.id _ with ⟨o3, st4, ev3⟩
              have h3 := countP_of_eq hde (dyn_import_error_ovf _ _ _)
              cases o3 <;> dsimp only <;>
                simp [List.countP_append, h1, h2, h3, ih]
            · simp [List.countP_append, h1, h2]
            · simp [List.countP_append, h1, h2]
          · exact h1
          · exact h1
          · exact h1

theorem drain_macrotasks_events (st : JsRuntimeState) :
    (drain_macrotasks st).2.2 = [] := by
  unfold drain_macrotasks
  split <;> rfl

theorem async_op_response_none_ovf (st : JsRuntimeState) :
    ((async_op_response st none).2.2).countP isOverflowEvent = 0 := by
  unfold async_op_response
  split
  · rfl
  · dsimp only
    split <;> rfl

theorem async_op_response_ovf_le (st : JsRuntimeState)
    (mb : Option (Nat × List Nat)) :
    ((async_op_response st mb).2.2).countP isOverflowEvent ≤ 1 := by
  unfold async_op_response
  split
  · exact Nat.zero_le 1
  · split
    · split
      · exact Nat.zero_le 1
      · dsimp only
        split <;> exact Nat.le_refl 1
    · dsimp only
      split <;> exact Nat.zero_le 1

theorem poll_step7_ovf (st : JsRuntimeState) :
    ((poll_step7 st).2.2).countP isOverflowEvent = 0 := by
  unfold poll_step7
  split
  · rcases har : async_op_response st none with ⟨o, st2, ev⟩
    have h := countP_of_eq har (async_op_response_none_ovf st)
    cases o <;> dsimp only
    · split <;> exact h
    · exact h
    · exact h
    · exact h
  · rfl

theorem stepSeq_ovf_le (r : Outcome Unit × JsRuntimeState × List RtEvent)
    (f : JsRuntimeState → Outcome Unit × JsRuntimeState × List RtEvent) (a b : Nat)
    (h1 : (r.2.2).countP isOverflowEvent ≤ a)
    (h2 : ∀ s, ((f s).2.2).countP isOverflowEvent ≤ b) :
    ((stepSeq r f).2.2).countP isOverflowEvent ≤ a + b := by
  rcases r with ⟨o, st, ev⟩
  cases o with
  | ok u =>
    dsimp only [stepSeq]
    rw [List.countP_append]
    exact Nat.add_le_add h1 (h2 st)
  | err e => exact Nat.le_trans h1 (Nat.le_add_right a b)
  | panicked m => exact Nat.le_trans h1 (Nat.le_add_right a b)
  | fuelOut => exact Nat.le_trans h1 (Nat.le_add_right a b)

theorem pollBody_ovf_le_one (fuel : Nat) (st : JsRuntimeState) :
    ((pollBody fuel st).2.2).countP isOverflowEvent ≤ 1 := by
  unfold pollBody
  refine Nat.le_trans (stepSeq_ovf_le _ _ 0 1 ?_ ?_) (by omega)
  · split
    · exact Nat.le_refl 0
    · exact Nat.le_of_eq (prepare_dyn_imports_ovf fuel _)
  intro st1
  refine Nat.le_trans (stepSeq_ovf_le _ _ 0 1 ?_ ?_) (by omega)
  · split
    · exact Nat.le_refl 0
    · exact Nat.le_of_eq (poll_dyn_imports_ovf fuel _)
  intro st2
  refine Nat.le_trans (stepSeq_ovf_le _ _ 0 1 ?_ ?_) (by omega)
  · split <;> exact Nat.le_refl 0
  intro st3
  refine Nat.le_trans (stepSeq_ovf_le _ _ 0 1 ?_ ?_) (by omega)
  · rw [check_promise_exceptions_events]
    exact Nat.le_refl 0
  intro st4
  dsimp only
  refine Nat.le_trans (stepSeq_ovf_le _ _ 0 1 ?_ ?_) (by omega)
  · exact Nat.le_of_eq (poll_step7_ovf _)
  intro st6
  refine Nat.le_trans (stepSeq_ovf_le _ _ 1 0 ?_ ?_) (by omega)
  · split
    · exact async_op_response_ovf_le _ _
    · exact Nat.zero_le 1
  intro st7
  refine Nat.le_trans (stepSeq_ovf_le _ _ 0 0 ?_ ?_) (by omega)
  · rw [drain_macrotasks_events]
    exact Nat.le_refl 0
  intro st8
  rw [check_promise_exceptions_events]
  exact Nat.le_refl 0

theorem poll_events_eq_pollBody (fuel : Nat) (rt : JsRuntime) (st : JsRuntimeState) :
    (JsRuntime.poll fuel rt st).2.2.2 = (pollBody fuel st).2.2 := by
  unfold JsRuntime.poll
  rcases pollBody fuel st with ⟨o, st2, ev⟩
  cases o <;> dsimp only
  split <;> rfl

theorem push_records_mono {q : SharedQueue} {a : Nat} {b : List Nat}
    {x : Nat × List Nat} (hx : x ∈ q.records) : x ∈ ((q.push a b).1).records := by
  by_cases hc : (q.records.length + 1 ≤ q.maxRecords ∧ q.bytesUsed + b.length ≤ q.capacityBytes)
  · simp [SharedQueue.push, hc, hx]
  · simp [SharedQueue.push, hc, hx]

theorem push_true_mem_last {q : SharedQueue} {a : Nat} {b : List Nat}
    (h : (q.push a b).2 = true) : (a, b) ∈ ((q.push a b).1).records := by
  by_cases hc : (q.records.length + 1 ≤ q.maxRecords ∧ q.bytesUsed + b.length ≤ q.capacityBytes)
  · simp [SharedQueue.push, hc]
  · simp [SharedQueue.push, hc] at h

theorem drainOpsAux_queue_mono (fuel : Nat) :
    ∀ (q : SharedQueue) (ops : List (FutState (Nat × List Nat))) (x : Nat × List Nat),
    x ∈ q.records → x ∈ ((drainOpsAux fuel q ops).queue).records := by
  induction fuel with
  | zero => intro q ops x hx; exact hx
  | succ n ih =>
    intro q ops x hx
    unfold drainOpsAux
    cases hfr : findReady ops with
    | none => exact hx
    | some p =>
      obtain ⟨r, rest⟩ := p
      dsimp only
      by_cases hpush : (q.push r.1 r.2).2 = true
      · rw [if_pos hpush]
        exact ih _ _ x (push_records_mono hx)
      · rw [if_neg hpush]
        exact hx

theorem drainOpsAux_pushed_in_queue (fuel : Nat) :
    ∀ (q : SharedQueue) (ops : List (FutState (Nat × List Nat))) (x : Nat × List Nat),
    x ∈ (drainOpsAux fuel q ops).pushed →
      x ∈ ((drainOpsAux fuel q ops).queue).records := by
  induction fuel with
  | zero =>
    intro q ops x hx
    simp [drainOpsAux] at hx
  | succ n ih =>
    intro q ops x hx
    unfold drainOpsAux at hx ⊢
    cases hfr : findReady ops with
    | none =>
      rw [hfr] at hx
      simp at hx
    | some p =>
      obtain ⟨r, rest⟩ := p
      rw [hfr] at hx
      dsimp only at hx ⊢
      by_cases hpush : (q.push r.1 r.2).2 = true
      · rw [if_pos hpush] at hx ⊢
        dsimp only at hx ⊢
        rcases List.mem_cons.mp hx with hx1 | hx2
        · subst hx1
          exact drainOpsAux_queue_mono n _ _ _ (push_true_mem_last hpush)
        · exact ih _ _ _ hx2
      · rw [if_neg hpush] at hx
        simp at hx

theorem drainOps_pushed_in_queue {q : SharedQueue}
    {ops : List (FutState (Nat × List Nat))} {x : Nat × List Nat}
    (hx : x ∈ (drainOps q ops).pushed) : x ∈ ((drainOps q ops).queue).records :=
  drainOpsAux_pushed_in_queue ops.length q ops x hx

theorem drainOps_queue_mono {q : SharedQueue}
    {ops : List (FutState (Nat × List Nat))} {x : Nat × List Nat}
    (hx : x ∈ q.records) : x ∈ ((drainOps q ops).queue).records :=
  drainOpsAux_queue_mono ops.length q ops x hx

/-- C2 amended: in every poll at most one overflow response is delivered
through the receive-callback (op_id, bytes) argument; and every op response
completed in the drain phase is accounted for: it was pushed onto the
SharedQueue, or it is the delivered overflow response, or its future set
retains the rest of the set unpolled, except that a response that overflowed
from the reffed drain loop is overwritten (lost) when the unreffed drain loop
also overflows in the same poll. -/
theorem c2_overflow_delivery (fuel : Nat) (rt : JsRuntime) (st : JsRuntimeState)
    (q : SharedQueue) (ops unref : List (FutState (Nat × List Nat)))
    (r : Nat × List Nat)
    (hr : r ∈ (drainPhase q ops unref).completed) :
    ((JsRuntime.poll fuel rt st).2.2.2).countP isOverflowEvent ≤ 1 ∧
    (r ∈ ((drainPhase q ops unref).queue).records ∨
     (drainPhase q ops unref).overflow_response = some r ∨
     FutState.ready r ∈ (drainPhase q ops unref).ops ∨
     FutState.ready r ∈ (drainPhase q ops unref).unref_ops ∨
     ((drainPhase q ops unref).ovf1 = some r ∧
       ((drainPhase q ops unref).ovf2).isSome = true)) := by
  constructor
  · rw [poll_events_eq_pollBody]
    exact pollBody_ovf_le_one fuel st
  · dsimp only [drainPhase, DrainPhaseResult.completed,
      DrainPhaseResult.overflow_response] at hr ⊢
    rcases List.mem_append.mp hr with h123 | h4
    · rcases List.mem_append.mp h123 with h12 | h3
      · rcases List.mem_append.mp h12 with h1 | h2
        · exact Or.inl (drainOps_queue_mono (drainOps_pushed_in_queue h1))
        · exact Or.inl (drainOps_pushed_in_queue h2)
      · have h1 : (drainOps q ops).overflow = some r := by
          cases ho : (drainOps q ops).overflow with
          | none => rw [ho] at h3; simp at h3
          | some y =>
            rw [ho] at h3
            simp at h3
            rw [h3]
        cases ho2 : (drainOps (drainOps q ops).queue unref).overflow with
        | none =>
          refine Or.inr (Or.inl ?_)
          dsimp only
          exact h1
        | some y =>
          exact Or.inr (Or.inr (Or.inr (Or.inr ⟨h1, rfl⟩)))
    · have h2 : (drainOps (drainOps q ops).queue unref).overflow = some r := by
        cases ho : (drainOps (drainOps q ops).queue unref).overflow with
        | none => rw [ho] at h4; simp at h4
        | some y =>
          rw [ho] at h4
          simp at h4
          rw [h4]
      refine Or.inr (Or.inl ?_)
      rw [h2]

/-- Fixture: a shared queue with room for 2 payload bytes only. -/
def c2queue : SharedQueue := ⟨8, 2, []⟩

/-- Fixture: one ready reffed op whose response does not fit the queue. -/
def c2ops : List (FutState (Nat × List Nat)) := [FutState.ready (1, [9, 9, 9])]

/-- Fixture: one ready unreffed op whose response does not fit either. -/
def c2unref : List (FutState (Nat × List Nat)) := [FutState.ready (2, [8, 8, 8, 8])]

/-- Counterexample to C2 as stated: when the reffed and the unreffed drain
loop both overflow in the same poll, the reffed overflow response (1, [9,9,9])
is completed but is neither in the SharedQueue, nor the delivered overflow
response (the unreffed one overwrote the slot), nor retained in either pending
set: it is lost. -/
theorem c2_overflow_delivery_cex :
    (1, [9, 9, 9]) ∈ (drainPhase c2queue c2ops c2unref).completed ∧
    ¬ ((1, [9, 9, 9]) ∈ ((drainPhase c2queue c2ops c2unref).queue).records ∨
       (drainPhase c2queue c2ops c2unref).overflow_response = some (1, [9, 9, 9]) ∨
       FutState.ready (1, [9, 9, 9]) ∈ (drainPhase c2queue c2ops c2unref).ops ∨
       FutState.ready (1, [9, 9, 9]) ∈ (drainPhase c2queue c2ops c2unref).unref_ops) := by
  decide

/-- Witness for the amended C2 at the double-overflow drain inputs and a
concrete poll. -/
theorem c2_overflow_delivery_witness :
    ((JsRuntime.poll 1 baseRt baseState).2.2.2).countP isOverflowEvent ≤ 1 ∧
    ((1, [9, 9, 9]) ∈ ((drainPhase c2queue c2ops c2unref).queue).records ∨
     (drainPhase c2queue c2ops c2unref).overflow_response = some (1, [9, 9, 9]) ∨
     FutState.ready (1, [9, 9, 9]) ∈ (drainPhase c2queue c2ops c2unref).ops ∨
     FutState.ready (1, [9, 9, 9]) ∈ (drainPhase c2queue c2ops c2unref).unref_ops ∨
     ((drainPhase c2queue c2ops c2unref).ovf1 = some (1, [9, 9, 9]) ∧
       ((drainPhase c2queue c2ops c2unref).ovf2).isSome = true)) :=
  c2_overflow_delivery 1 baseRt baseState c2queue c2ops c2unref (1, [9, 9, 9])
    (by decide)

/-- C1 amended: a poll returns Ready(Ok(())) exactly when no error, panic or
model fuel exhaustion occurred during the poll and, at the end of the poll,
the reffed pending-op set, the pending dynamic-import set and the preparing
dynamic-import set are all empty. Outstanding unreffed ops play no part in the
condition, and a concrete poll with a never-resolving unreffed op outstanding
still returns Ready(Ok(())). -/
theorem c1_poll_ready_iff (fuel : Nat) (rt : JsRuntime) (st : JsRuntimeState) :
    ((JsRuntime.poll fuel rt st).1 = PollOutcome.readyOk ↔
      ((JsRuntime.poll fuel rt st).1.isAbnormal = false ∧
       ((JsRuntime.poll fuel rt st).2.2.1.pending_ops).isEmpty = true ∧
       ((JsRuntime.poll fuel rt st).2.2.1.pending_dyn_imports).isEmpty = true ∧
       ((JsRuntime.poll fuel rt st).2.2.1.preparing_dyn_imports).isEmpty = true)) ∧
    (JsRuntime.poll 1 baseRt
        { baseState with pending_unref_ops := [FutState.pending] }).1 =
      PollOutcome.readyOk := by
  constructor
  · unfold JsRuntime.poll
    rcases hb : pollBody fuel st with ⟨o, st2, ev⟩
    cases o <;> dsimp only
    · split
      · rename_i hcond
        simp only [Bool.and_eq_true] at hcond
        obtain ⟨⟨h1, h2⟩, h3⟩ := hcond
        simp [PollOutcome.isAbnormal, h1, h2, h3]
      · rename_i hcond
        constructor
        · intro hx
          exact PollOutcome.noConfusion hx
        · rintro ⟨_, h1, h2, h3⟩
          exact absurd (by simp [h1, h2, h3]) hcond
    · simp [PollOutcome.isAbnormal]
    · simp [PollOutcome.isAbnormal]
    · simp [PollOutcome.isAbnormal]
  · rfl

/-- Fixture: an otherwise idle state with one recorded unhandled promise
rejection. -/
def c1state : JsRuntimeState :=
  { baseState with pending_promise_exceptions := [(1, V8Value.error "boom")] }

/-- Counterexample to C1 as stated: polling c1state surfaces the recorded
rejection, so the poll is not Ready(Ok(())), even though at the end of the
poll the reffed pending-op set, the pending dynamic-import set and the
preparing dynamic-import set are all empty. -/
theorem c1_poll_ready_iff_cex :
    (JsRuntime.poll 1 baseRt c1state).1.isReadyOk = false ∧
    ((JsRuntime.poll 1 baseRt c1state).2.2.1.pending_ops).isEmpty = true ∧
    ((JsRuntime.poll 1 baseRt c1state).2.2.1.pending_dyn_imports).isEmpty = true ∧
    ((JsRuntime.poll 1 baseRt c1state).2.2.1.preparing_dyn_imports).isEmpty = true :=
  ⟨rfl, rfl, rfl, rfl⟩
